import Mathlib

/-!
Verification of the Nek5000 Spack package recipe
(`var/spack/repos/builtin/packages/nek5000/package.py`).

The recipe is orchestration glue: it validates the `MAXNEL` variant value,
checks for a Fortran 77 compiler, patches two vendored build scripts
(`maketools`, `makenek`) with `filter_file` substitutions, invokes
`./maketools` once per enabled tool, stages the results with
`install_tree`, and runs a post-install smoke test.

We embed the recipe shallowly: the side-effecting steps of `install` are
reified as a trace (a list of actions), and the pure validator
`is_integral` is embedded over a small domain of Python values (integers,
booleans, floats, strings) with Python `int()` conversion modelled
explicitly.
-/

namespace Nek5000

/-! ## Python value domain and the `is_integral` validator

Source:
```
def is_integral(x):
    try:
        return isinstance(int(x), numbers.Integral) and \
            not isinstance(x, bool) and int(x) > 0
    except ValueError:
        return False
```
`int(x)` succeeds on integers, booleans (`True -> 1`, `False -> 0`) and
floats (truncation toward zero), and parses strings (optional surrounding
whitespace, optional sign, digits), raising `ValueError` otherwise.
Floats are modelled as rationals (every IEEE double is rational; `nan`
and `inf` are outside the modelled domain). Underscore digit grouping of
Python 3.6+ string literals is not modelled.
-/

/-- Whitespace accepted by Python `int()` around a numeric string. -/
def isPyWs (c : Char) : Bool := c = ' ' ∨ c = '\t' ∨ c = '\n' ∨ c = '\r'

/-- Strip leading and trailing whitespace from a character list. -/
def stripChars (l : List Char) : List Char :=
  ((l.dropWhile isPyWs).reverse.dropWhile isPyWs).reverse

/-- Value of a string of decimal digits. -/
def digitsToNat (s : List Char) : Nat := s.foldl (fun n c => 10 * n + (c.toNat - 48)) 0

/-- Python `int(s)` on a string: optional surrounding whitespace, optional
sign, one or more digits; `none` models `ValueError`. -/
def parsePyInt (s : String) : Option Int :=
  match stripChars s.toList with
  | [] => none
  | c :: rest =>
    let signed : Int × List Char :=
      if c = '+' then (1, rest)
      else if c = '-' then (-1, rest)
      else (1, c :: rest)
    if signed.2 ≠ [] ∧ signed.2.all Char.isDigit then
      some (signed.1 * digitsToNat signed.2)
    else none

/-- Python `int()` on a float truncates toward zero. -/
def ratTrunc (q : Rat) : Int := if 0 ≤ q then ⌊q⌋ else -⌊-q⌋

/-- The domain of values the `MAXNEL` validator can receive: Python
integers, booleans, floats (as rationals) and strings. -/
inductive PyValue
  | int (n : Int)
  | bool (b : Bool)
  | float (q : Rat)
  | str (s : String)
  deriving DecidableEq

/-- Python `int(x)` on the modelled domain; `none` models `ValueError`. -/
def pyInt : PyValue → Option Int
  | .int n => some n
  | .bool b => some (if b then 1 else 0)
  | .float q => some (ratTrunc q)
  | .str s => parsePyInt s

/-- `isinstance(x, bool)`. -/
def PyValue.isBoolVal : PyValue → Bool
  | .bool _ => true
  | _ => false

/-- The `MAXNEL` validator.  `isinstance(int(x), numbers.Integral)` is
always true once `int(x)` has succeeded, so the result is: conversion
succeeds, the value is not a `bool`, and the converted integer is
positive. -/
def is_integral (x : PyValue) : Bool :=
  match pyInt x with
  | some n => !x.isBoolVal && decide (0 < n)
  | none => false

/-! ## Versions

Modelled from the spec: the `Version` class of the enclosing package
manager is not part of the given source.  Per the spec, a version
descriptor is "either a fixed released version ... or a moving `develop`
reference", releases being dotted/dashed tags whose components are
numbers or words; patch steps may be conditioned "on the resolved
version being at or above a threshold, or exactly equal to a specific
pre-release tag".  Equality is structural.  The order on releases is
lexicographic on components, a longer version being greater on an equal
prefix.  The spec does not say how `develop` compares to releases, nor
how a word component compares to a numeric one; the choices below
(`develop` at-or-above everything, word components below numeric ones)
are recorded explicitly, and no claim settled in this file depends on
either choice. -/

inductive VComp
  | num (n : Nat)
  | word (s : String)
  deriving DecidableEq

inductive Version
  | release (parts : List VComp)
  | develop
  deriving DecidableEq

/-- Strict order on single version components (see the note on
`Version`). -/
def VComp.lt : VComp → VComp → Bool
  | .num a, .num b => a < b
  | .word a, .word b => a < b
  | .word _, .num _ => true
  | .num _, .word _ => false

/-- Lexicographic order on component lists. -/
def compsLt : List VComp → List VComp → Bool
  | [], [] => false
  | [], _ :: _ => true
  | _ :: _, [] => false
  | a :: as, b :: bs => if a = b then compsLt as bs else VComp.lt a b

/-- `a >= b` on versions. -/
def Version.ge : Version → Version → Bool
  | .develop, _ => true
  | .release _, .develop => false
  | .release a, .release b => !(compsLt a b)

/-- `Version('17.0')`, declared at line 50 of the recipe. -/
def v17_0 : Version := .release [.num 17, .num 0]

/-- `Version('17.0.0-beta2')`, the pre-release tag gating `int_tp`. -/
def v17beta2 : Version := .release [.num 17, .num 0, .num 0, .word "beta", .num 2]

/-! ## The install trace

`install` runs `filter_file` substitutions, `./maketools` invocations and
`install_tree` copies.  We reify each as a trace action.  The
`filter_file` patterns are the regex literals of the source, tabulated by
`Pat.regex`; the target script (`maketools` / `makenek`) and the working
directory (`tools` / `bin`) are recorded on each action. -/

inductive Pat
  | fc | cc | fflags | cflags | maxnel | mpi0 | profiling0 | visit1 | visitInstall | sourceRoot
  deriving DecidableEq

/-- The regex literal the source passes to `filter_file` for each
substitution. -/
def Pat.regex : Pat → String
  | .fc => "^#FC\\s*=.*"
  | .cc => "^#CC\\s*=.*"
  | .fflags => "^#FFLAGS=.*"
  | .cflags => "^#CFLAGS=.*"
  | .maxnel => "^#MAXNEL\\s*=.*"
  | .mpi0 => "^#MPI=0"
  | .profiling0 => "^#PROFILING=0"
  | .visit1 => "^#VISIT=1"
  | .visitInstall => "^#VISIT_INSTALL=.*"
  | .sourceRoot => "^#SOURCE_ROOT=\\\"\\$H.*"

inductive FileT
  | maketools | makenek
  deriving DecidableEq

inductive Dir
  | tools | bin
  deriving DecidableEq

inductive Tool
  | genbox | int_tp | n2to3 | postnek | reatore2 | genmap | nekmerge | prenek
  deriving DecidableEq

inductive Action
  | filterFile (pat : Pat) (repl : String) (file : FileT) (dir : Dir)
  | makeTools (tool : Tool)
  | installTree (src dst : String)
  deriving DecidableEq

/-- `'FC="{0}"'.format(v)`. -/
def fcAssign (v : String) : String := "FC=\"" ++ v ++ "\""

/-- `'CC="{0}"'.format(v)`. -/
def ccAssign (v : String) : String := "CC=\"" ++ v ++ "\""

/-- `'FFLAGS="{0}"'.format(v)`. -/
def ffAssign (v : String) : String := "FFLAGS=\"" ++ v ++ "\""

/-- `'CFLAGS="{0}"'.format(v)`. -/
def cfAssign (v : String) : String := "CFLAGS=\"" ++ v ++ "\""

/-- Python string formatting of a possibly-`None` value. -/
def pyFormat : Option String → String
  | some s => s
  | none => "None"

/-- The resolved configuration of one installation attempt: the variants
declared by the recipe, the resolved version, the toolchain descriptor
(`self.compiler.f77` may be absent, hence `Option`), the compiler flag
lists, the MPI wrapper paths from `spec['mpi']`, the Visit path from
`spec['visit']`, and the staging destinations under the install root. -/
structure Config where
  mpi : Bool
  profiling : Bool
  visit : Bool
  maxnel : String
  genbox : Bool
  int_tp : Bool
  n2to3 : Bool
  postnek : Bool
  reatore2 : Bool
  genmap : Bool
  nekmerge : Bool
  prenek : Bool
  version : Version
  f77 : Option String
  cc : String
  fflags : List String
  cflags : List String
  mpif77 : String
  mpicc : String
  visitBin : String
  destBin : String
  destBinNek : String

/-- The trace of `Nek5000.install`, transcribed step by step from the
source: the `maketools` patching and tool builds inside
`working_dir('tools')`, then the `makenek` patching inside
`working_dir('bin')` (where `FC`/`CC` are reassigned to the MPI wrappers
when `+mpi`), then the two `install_tree` copies.  Note that the two
flag substitutions inside the version-gated `makenek` block name the
file `'maketools'`, exactly as the source does at its lines 172-177. -/
def install (cfg : Config) : List Action :=
  let FC := pyFormat cfg.f77
  let CC := cfg.cc
  let fflags := String.intercalate " " cfg.fflags
  let cflags := String.intercalate " " cfg.cflags
  ([Action.filterFile Pat.fc (fcAssign FC) FileT.maketools Dir.tools,
    Action.filterFile Pat.cc (ccAssign CC) FileT.maketools Dir.tools]
    ++ (if fflags ≠ "" then
          [Action.filterFile Pat.fflags (ffAssign fflags) FileT.maketools Dir.tools]
        else [])
    ++ (if cflags ≠ "" then
          [Action.filterFile Pat.cflags (cfAssign cflags) FileT.maketools Dir.tools]
        else [])
    ++ [Action.filterFile Pat.maxnel ("MAXNEL=" ++ cfg.maxnel) FileT.maketools Dir.tools]
    ++ (if cfg.genbox then [Action.makeTools Tool.genbox] else [])
    ++ (if cfg.int_tp ∧ cfg.version = v17beta2 then [Action.makeTools Tool.int_tp] else [])
    ++ (if cfg.n2to3 then [Action.makeTools Tool.n2to3] else [])
    ++ (if cfg.postnek then [Action.makeTools Tool.postnek] else [])
    ++ (if cfg.reatore2 then [Action.makeTools Tool.reatore2] else [])
    ++ (if cfg.genmap then [Action.makeTools Tool.genmap] else [])
    ++ (if cfg.nekmerge then [Action.makeTools Tool.nekmerge] else [])
    ++ (if cfg.prenek then [Action.makeTools Tool.prenek] else []))
  ++
  (let FC2 := if cfg.mpi then cfg.mpif77 else FC
   let CC2 := if cfg.mpi then cfg.mpicc else CC
   (if cfg.mpi then []
    else [Action.filterFile Pat.mpi0 "MPI=0" FileT.makenek Dir.bin])
    ++ (if cfg.profiling then []
        else [Action.filterFile Pat.profiling0 "PROFILING=0" FileT.makenek Dir.bin])
    ++ (if cfg.visit then
          [Action.filterFile Pat.visit1 "VISIT=1" FileT.makenek Dir.bin,
           Action.filterFile Pat.visitInstall ("VISIT_INSTALL=\"" ++ cfg.visitBin ++ "\"")
             FileT.makenek Dir.bin]
        else [])
    ++ (if Version.ge cfg.version v17_0 then
          [Action.filterFile Pat.fc (fcAssign FC2) FileT.makenek Dir.bin,
           Action.filterFile Pat.cc (ccAssign CC2) FileT.makenek Dir.bin,
           Action.filterFile Pat.sourceRoot ("SOURCE_ROOT=\"" ++ cfg.destBinNek ++ "\"")
             FileT.makenek Dir.bin]
          ++ (if fflags ≠ "" then
                [Action.filterFile Pat.fflags (ffAssign fflags) FileT.maketools Dir.bin]
              else [])
          ++ (if cflags ≠ "" then
                [Action.filterFile Pat.cflags (cfAssign cflags) FileT.maketools Dir.bin]
              else [])
        else []))
  ++ [Action.installTree "bin" cfg.destBin, Action.installTree "../Nek5000" cfg.destBinNek]

/-! ## Preflight check and the install pipeline -/

/-- Python truthiness of `self.compiler.f77` (absent or empty is falsy). -/
def pyTruthy : Option String → Bool
  | none => false
  | some s => !(s == "")

/-- `Nek5000.fortran_check`: raise `RuntimeError` when there is no
Fortran 77 compiler. -/
def fortran_check (f77 : Option String) : Except String Unit :=
  if pyTruthy f77 = false then
    .error "Cannot build Nek5000 without a Fortran 77 compiler."
  else .ok ()

/-- Modelled from the spec: the enclosing framework runs the
`run_before('install')` hook before `install`, and an exception in the
hook aborts the installation, so a failed preflight check yields an
empty action trace.  The pair is (actions performed, outcome). -/
def installAttempt (cfg : Config) : List Action × Except String Unit :=
  match fortran_check cfg.f77 with
  | .error m => ([], .error m)
  | .ok _ => (install cfg, .ok ())

/-! ## Trace observations -/

/-- Replacement strings of the `filter_file` actions in a trace that use
pattern `p` on script file `f`. -/
def subsOf (t : List Action) (p : Pat) (f : FileT) : List String :=
  t.filterMap fun a => match a with
    | .filterFile p2 r f2 _ => if p2 = p ∧ f2 = f then some r else none
    | _ => none

/-- Replacement strings of the `filter_file` actions using pattern `p`
on file `f` in working directory `d`. -/
def subsOfIn (t : List Action) (p : Pat) (f : FileT) (d : Dir) : List String :=
  t.filterMap fun a => match a with
    | .filterFile p2 r f2 d2 => if p2 = p ∧ f2 = f ∧ d2 = d then some r else none
    | _ => none

/-- The tools passed to `./maketools`, in invocation order. -/
def toolCalls (t : List Action) : List Tool :=
  t.filterMap fun a => match a with
    | .makeTools tl => some tl
    | _ => none

/-! ## The post-install smoke test

`Nek5000.test_install` touches the file system and an external process:
we model `os.chdir`/`os.system` as trace actions over an explicit
current-directory state, and take as inputs the two facts the code
branches on or ignores: whether `<cwd>/nek5000` exists after the
launcher call, and the exit status `os.system` returned. -/

inductive TAction
  | chdir (d : String)
  | system (cmd : String)
  deriving DecidableEq

/-- `join_path` of the enclosing framework. -/
def joinPath (a b : String) : String := a ++ "/" ++ b

/-- A path is absolute when it starts with a slash (results of
`os.getcwd()` always are). -/
def isAbs (s : String) : Bool :=
  match s.toList with
  | '/' :: _ => true
  | _ => false

/-- Effect of `os.chdir(d)` on the current directory. -/
def chdirResolve (cwd d : String) : String := if isAbs d then d else joinPath cwd d

/-- The bundled example directory of the smoke test. -/
def eddyDir : String := "short_tests/eddy"

/-- Environment of one smoke-test run: the working directory at entry
(`os.getcwd()`), `self.prefix.bin`, whether the `nek5000` file exists in
the example directory after the launcher call, and the exit status the
launcher returned (which the source never inspects). -/
structure TestEnv where
  startDir : String
  binPath : String
  nekFile : Bool
  exitCode : Int

structure TestResult where
  trace : List TAction
  finalCwd : String
  outcome : Except String Unit

/-- `Nek5000.test_install`, transcribed from the source: save
`os.getcwd()`, `os.chdir` into the example directory, run the installed
launcher via `os.system` (its return value is discarded), and raise when
`nek5000` is absent; the restoring `os.chdir(currentDir)` is only
reached on the non-raising path. -/
def test_install (env : TestEnv) : TestResult :=
  let currentDir := env.startDir
  let cwd1 := chdirResolve env.startDir eddyDir
  let cmd := joinPath env.binPath "makenek" ++ " eddy_uv"
  if env.nekFile = false then
    { trace := [.chdir eddyDir, .system cmd], finalCwd := cwd1,
      outcome := .error "Cannot build example: short_tests/eddy." }
  else
    { trace := [.chdir eddyDir, .system cmd, .chdir currentDir],
      finalCwd := chdirResolve cwd1 currentDir,
      outcome := .ok () }

/-! ## Concrete configurations used by witnesses and counterexamples -/

/-- A representative resolved configuration: version 17.0, MPI on, all
tools on, no extra flags. -/
def cfg0 : Config :=
  { mpi := true, profiling := true, visit := false, maxnel := "150000",
    genbox := true, int_tp := true, n2to3 := true, postnek := true,
    reatore2 := true, genmap := true, nekmerge := true, prenek := true,
    version := v17_0, f77 := some "/usr/bin/g77", cc := "/usr/bin/gcc",
    fflags := [], cflags := [], mpif77 := "/opt/mpi/bin/mpif77",
    mpicc := "/opt/mpi/bin/mpicc", visitBin := "/opt/visit/bin",
    destBin := "/spack/opt/nek5000/bin",
    destBinNek := "/spack/opt/nek5000/bin/Nek5000" }

/-- The same configuration resolved at the pre-release tag. -/
def cfgBeta : Config := { cfg0 with version := v17beta2 }

/-- The same configuration resolved at a release below the 17.0
threshold. -/
def cfg16 : Config := { cfg0 with version := .release [.num 16, .num 0] }

/-- The same configuration with non-empty extra compiler flags. -/
def cfg5 : Config := { cfg0 with fflags := ["-O2"], cflags := ["-O3"] }

/-- The same configuration with no Fortran 77 compiler. -/
def cfgNoF : Config := { cfg0 with f77 := none }

/-- Smoke-test environment in which the launcher produced `nek5000`. -/
def envOk : TestEnv :=
  { startDir := "/build", binPath := "/spack/opt/nek5000/bin", nekFile := true, exitCode := 0 }

/-- Smoke-test environment in which no `nek5000` file appeared. -/
def envFail : TestEnv := { envOk with nekFile := false }

/-- The non-integer rational 27/10 (the Python float `2.7`). -/
def q27 : Rat := ⟨27, 10, by decide, by decide⟩

/-! ## Helper lemmas -/

lemma filterMap_ite {α β : Type} (c : Prop) [Decidable c] (l1 l2 : List α)
    (g : α → Option β) :
    (if c then l1 else l2).filterMap g = if c then l1.filterMap g else l2.filterMap g := by
  split <;> rfl

lemma mem_ite_singleton {α : Type} (a b : α) (c : Prop) [Decidable c] :
    a ∈ (if c then [b] else ([] : List α)) ↔ c ∧ a = b := by
  split <;> simp_all

lemma toolCalls_install (cfg : Config) :
    toolCalls (install cfg)
      = (if cfg.genbox then [Tool.genbox] else [])
        ++ (if cfg.int_tp ∧ cfg.version = v17beta2 then [Tool.int_tp] else [])
        ++ (if cfg.n2to3 then [Tool.n2to3] else [])
        ++ (if cfg.postnek then [Tool.postnek] else [])
        ++ (if cfg.reatore2 then [Tool.reatore2] else [])
        ++ (if cfg.genmap then [Tool.genmap] else [])
        ++ (if cfg.nekmerge then [Tool.nekmerge] else [])
        ++ (if cfg.prenek then [Tool.prenek] else []) := by
  simp [toolCalls, install, List.filterMap_append, filterMap_ite]

lemma int_tp_mem_iff (cfg : Config) :
    Tool.int_tp ∈ toolCalls (install cfg) ↔ cfg.int_tp = true ∧ cfg.version = v17beta2 := by
  simp [toolCalls_install, mem_ite_singleton]

lemma v17_0_ne_v17beta2 : v17_0 ≠ v17beta2 := by decide

lemma subsOf_install_fc_maketools (cfg : Config) :
    subsOf (install cfg) Pat.fc FileT.maketools = [fcAssign (pyFormat cfg.f77)] := by
  simp [subsOf, install, List.filterMap_append, filterMap_ite]

lemma subsOf_install_cc_maketools (cfg : Config) :
    subsOf (install cfg) Pat.cc FileT.maketools = [ccAssign cfg.cc] := by
  simp [subsOf, install, List.filterMap_append, filterMap_ite]

lemma subsOf_install_fc_makenek (cfg : Config) :
    subsOf (install cfg) Pat.fc FileT.makenek
      = (if Version.ge cfg.version v17_0 then
           [fcAssign (if cfg.mpi then cfg.mpif77 else pyFormat cfg.f77)]
         else []) := by
  simp [subsOf, install, List.filterMap_append, filterMap_ite]

lemma subsOf_install_cc_makenek (cfg : Config) :
    subsOf (install cfg) Pat.cc FileT.makenek
      = (if Version.ge cfg.version v17_0 then
           [ccAssign (if cfg.mpi then cfg.mpicc else cfg.cc)]
         else []) := by
  simp [subsOf, install, List.filterMap_append, filterMap_ite]

lemma subsOf_install_mpi0 (cfg : Config) :
    subsOf (install cfg) Pat.mpi0 FileT.makenek
      = (if cfg.mpi then [] else ["MPI=0"]) := by
  simp [subsOf, install, List.filterMap_append, filterMap_ite]

lemma ratTrunc_pos_iff (q : Rat) : 0 < ratTrunc q ↔ 1 ≤ q := by
  unfold ratTrunc
  split
  · rw [Int.lt_iff_add_one_le, Int.le_floor]
    norm_num
  · rename_i h
    push_neg at h
    constructor
    · intro hc
      exfalso
      have h2 : (0:Int) ≤ ⌊-q⌋ := Int.floor_nonneg.mpr (by linarith)
      omega
    · intro hc
      exfalso
      linarith

lemma is_integral_float_iff (q : Rat) : is_integral (.float q) = true ↔ 1 ≤ q := by
  simpa [is_integral, pyInt, PyValue.isBoolVal] using ratTrunc_pos_iff q

/-! ## Claims -/

/-- C1 (counterexample): the claim says `is_integral` rejects every
non-integer value, but the Python float `2.7` (the non-integer rational
27/10) is accepted, because `int(2.7)` truncates to the positive
integer 2. -/
theorem is_integral_claim_cex :
    is_integral (PyValue.float q27) = true ∧ q27.isInt = false := by
  exact ⟨(is_integral_float_iff q27).mpr (by decide), by decide⟩

/-- C1 (amended): `is_integral` accepts every integer `n > 0` and
rejects every integer `n <= 0` and every boolean; but a non-integer
value need not be rejected: a float is accepted exactly when it is at
least 1 (its truncation toward zero then being positive), and a string
is accepted exactly when it parses as a strictly positive integer. -/
theorem is_integral_amended :
    (∀ n : Int, 0 < n → is_integral (.int n) = true) ∧
    (∀ n : Int, n ≤ 0 → is_integral (.int n) = false) ∧
    (∀ b : Bool, is_integral (.bool b) = false) ∧
    (∀ q : Rat, (is_integral (.float q) = true ↔ 1 ≤ q)) ∧
    (∀ s : String, (is_integral (.str s) = true ↔
        ∃ n : Int, parsePyInt s = some n ∧ 0 < n)) := by
  refine ⟨?_, ?_, ?_, is_integral_float_iff, ?_⟩
  · intro n h
    simp [is_integral, pyInt, PyValue.isBoolVal, h]
  · intro n h
    simp [is_integral, pyInt, PyValue.isBoolVal]
    omega
  · intro b
    cases b <;> rfl
  · intro s
    cases h : parsePyInt s <;>
      simp [is_integral, pyInt, PyValue.isBoolVal, h]

/-- Witness for C1: the theorem applied at the default variant value
150000, at 0, at `True`, at the float 1/2 and at the string "7". -/
theorem is_integral_amended_witness :
    is_integral (PyValue.int 150000) = true ∧
    is_integral (PyValue.int 0) = false ∧
    is_integral (PyValue.bool true) = false ∧
    is_integral (PyValue.float (1 / 2)) = false ∧
    is_integral (PyValue.str "7") = true := by
  refine ⟨is_integral_amended.1 150000 (by norm_num),
          is_integral_amended.2.1 0 le_rfl,
          is_integral_amended.2.2.1 true,
          ?_, ?_⟩
  · have h := (is_integral_amended.2.2.2.1 (1 / 2)).not
    simp only [Bool.not_eq_true] at h
    exact h.mpr (by norm_num)
  · exact (is_integral_amended.2.2.2.2 "7").mpr ⟨7, by decide, by norm_num⟩

/-- C2: the `./maketools int_tp` invocation happens exactly when the
`int_tp` variant is requested and the resolved version equals
`17.0.0-beta2`; at version 17.0 the tool is invoked zero times. -/
theorem int_tp_gate (cfg : Config) :
    (Tool.int_tp ∈ toolCalls (install cfg)
        ↔ cfg.int_tp = true ∧ cfg.version = v17beta2) ∧
    (cfg.version = v17_0 → (toolCalls (install cfg)).count Tool.int_tp = 0) := by
  refine ⟨int_tp_mem_iff cfg, fun h => List.count_eq_zero.mpr ?_⟩
  intro hmem
  exact v17_0_ne_v17beta2 (h ▸ ((int_tp_mem_iff cfg).mp hmem).2)

/-- Witness for C2: at the pre-release tag the tool is invoked, and at
version 17.0 it is invoked zero times. -/
theorem int_tp_gate_witness :
    Tool.int_tp ∈ toolCalls (install cfgBeta) ∧
    (toolCalls (install cfg0)).count Tool.int_tp = 0 :=
  ⟨(int_tp_gate cfgBeta).1.mpr ⟨rfl, rfl⟩, (int_tp_gate cfg0).2 rfl⟩

/-- C3 (counterexample): the claim says that with `mpi=true` every
compiler path substituted into the patched scripts is an MPI-wrapper
path, but the `maketools` script receives the direct Fortran compiler
path (`self.compiler.f77`), not the MPI wrapper. -/
theorem mpi_patch_cex :
    cfg0.mpi = true ∧
    subsOf (install cfg0) Pat.fc FileT.maketools = [fcAssign "/usr/bin/g77"] ∧
    cfg0.mpif77 = "/opt/mpi/bin/mpif77" ∧
    fcAssign "/usr/bin/g77" ≠ fcAssign "/opt/mpi/bin/mpif77" := by
  refine ⟨rfl, ?_, rfl, by decide⟩
  rw [subsOf_install_fc_maketools]
  rfl

/-- C3 (amended): with `mpi=true` the compiler paths substituted into
`makenek` (which happen exactly when the version is at or above 17.0)
are the MPI-wrapper paths and the MPI-disable line is not inserted,
while `maketools` always receives the direct compiler paths; with
`mpi=false` the direct paths are substituted into both scripts and the
MPI-disable line is inserted into `makenek`. -/
theorem mpi_patch_amended (cfg : Config) :
    (cfg.mpi = true →
       subsOf (install cfg) Pat.fc FileT.makenek
           = (if Version.ge cfg.version v17_0 then [fcAssign cfg.mpif77] else []) ∧
       subsOf (install cfg) Pat.cc FileT.makenek
           = (if Version.ge cfg.version v17_0 then [ccAssign cfg.mpicc] else []) ∧
       subsOf (install cfg) Pat.mpi0 FileT.makenek = [] ∧
       subsOf (install cfg) Pat.fc FileT.maketools = [fcAssign (pyFormat cfg.f77)] ∧
       subsOf (install cfg) Pat.cc FileT.maketools = [ccAssign cfg.cc]) ∧
    (cfg.mpi = false →
       subsOf (install cfg) Pat.fc FileT.makenek
           = (if Version.ge cfg.version v17_0 then [fcAssign (pyFormat cfg.f77)] else []) ∧
       subsOf (install cfg) Pat.cc FileT.makenek
           = (if Version.ge cfg.version v17_0 then [ccAssign cfg.cc] else []) ∧
       subsOf (install cfg) Pat.mpi0 FileT.makenek = ["MPI=0"] ∧
       subsOf (install cfg) Pat.fc FileT.maketools = [fcAssign (pyFormat cfg.f77)] ∧
       subsOf (install cfg) Pat.cc FileT.maketools = [ccAssign cfg.cc]) := by
  constructor <;> intro h <;>
    simp [subsOf_install_fc_makenek, subsOf_install_cc_makenek, subsOf_install_mpi0,
          subsOf_install_fc_maketools, subsOf_install_cc_maketools, h]

/-- Witness for C3 (amended): evaluated at the MPI configuration `cfg0`
and at the same configuration with `mpi=false`. -/
theorem mpi_patch_amended_witness :
    subsOf (install cfg0) Pat.fc FileT.makenek = [fcAssign cfg0.mpif77] ∧
    subsOf (install cfg0) Pat.mpi0 FileT.makenek = [] ∧
    subsOf (install { cfg0 with mpi := false }) Pat.mpi0 FileT.makenek = ["MPI=0"] := by
  refine ⟨?_, ((mpi_patch_amended cfg0).1 rfl).2.2.1,
          ((mpi_patch_amended { cfg0 with mpi := false }).2 rfl).2.2.1⟩
  have h := ((mpi_patch_amended cfg0).1 rfl).1
  simpa using h

/-- C4 (counterexample): the claim says every installation patches the
compiler paths into both scripts regardless of resolved version, but at
a release below the 17.0 threshold `makenek` receives no FC or CC
substitution at all. -/
theorem compiler_sub_cex :
    subsOf (install cfg16) Pat.fc FileT.makenek = [] ∧
    subsOf (install cfg16) Pat.cc FileT.makenek = [] := by
  rw [subsOf_install_fc_makenek, subsOf_install_cc_makenek]
  decide

/-- C4 (amended): `maketools` receives the FC and CC substitutions in
every installation, while `makenek` receives them exactly when the
resolved version is at or above 17.0. -/
theorem compiler_sub_amended (cfg : Config) :
    subsOf (install cfg) Pat.fc FileT.maketools = [fcAssign (pyFormat cfg.f77)] ∧
    subsOf (install cfg) Pat.cc FileT.maketools = [ccAssign cfg.cc] ∧
    (subsOf (install cfg) Pat.fc FileT.makenek ≠ [] ↔ Version.ge cfg.version v17_0 = true) ∧
    (subsOf (install cfg) Pat.cc FileT.makenek ≠ [] ↔ Version.ge cfg.version v17_0 = true) := by
  refine ⟨subsOf_install_fc_maketools cfg, subsOf_install_cc_maketools cfg, ?_, ?_⟩
  · rw [subsOf_install_fc_makenek]
    cases h : Version.ge cfg.version v17_0 <;> simp [h]
  · rw [subsOf_install_cc_makenek]
    cases h : Version.ge cfg.version v17_0 <;> simp [h]

/-- Witness for C4 (amended): evaluated at version 17.0, where both
scripts are patched. -/
theorem compiler_sub_amended_witness :
    subsOf (install cfg0) Pat.fc FileT.maketools = [fcAssign (pyFormat cfg0.f77)] ∧
    subsOf (install cfg0) Pat.fc FileT.makenek ≠ [] :=
  ⟨(compiler_sub_amended cfg0).1, (compiler_sub_amended cfg0).2.2.1.mpr rfl⟩

/-- C5 (code bug): at version 17.0 with non-empty flag lists, the
version-gated block that the source comments as updating `makenek`
performs its FFLAGS/CFLAGS substitutions on a file named `maketools` in
the `bin` working directory, and no FFLAGS/CFLAGS substitution ever
targets `makenek`. -/
theorem flag_sub_bug :
    Version.ge cfg5.version v17_0 = true ∧
    String.intercalate " " cfg5.fflags ≠ "" ∧
    String.intercalate " " cfg5.cflags ≠ "" ∧
    subsOf (install cfg5) Pat.fflags FileT.makenek = [] ∧
    subsOf (install cfg5) Pat.cflags FileT.makenek = [] ∧
    subsOfIn (install cfg5) Pat.fflags FileT.maketools Dir.bin = [ffAssign "-O2"] ∧
    subsOfIn (install cfg5) Pat.cflags FileT.maketools Dir.bin = [cfAssign "-O3"] := by
  decide

/-- C6: when the toolchain has no (truthy) Fortran 77 compiler, the
installation attempt fails at once with the descriptive message and an
empty action trace; when one is present, the preflight check returns
without raising. -/
theorem fortran_preflight (cfg : Config) :
    (pyTruthy cfg.f77 = false →
       installAttempt cfg
         = ([], Except.error "Cannot build Nek5000 without a Fortran 77 compiler.")) ∧
    (pyTruthy cfg.f77 = true → fortran_check cfg.f77 = Except.ok ()) := by
  constructor <;> intro h <;> simp [installAttempt, fortran_check, h]

/-- Witness for C6: a toolchain without f77 aborts with the message and
no actions; `cfg0` passes the check. -/
theorem fortran_preflight_witness :
    installAttempt cfgNoF
      = ([], Except.error "Cannot build Nek5000 without a Fortran 77 compiler.") ∧
    fortran_check cfg0.f77 = Except.ok () :=
  ⟨(fortran_preflight cfgNoF).1 rfl, (fortran_preflight cfg0).2 rfl⟩

/-- C7: the smoke test first changes into the bundled example
directory, invokes the installed launcher on the `eddy_uv` case, raises
the descriptive error exactly when no `nek5000` file exists there
afterwards, and returns without error when the file exists. -/
theorem smoke_test_check (env : TestEnv) :
    (test_install env).trace.head? = some (TAction.chdir eddyDir) ∧
    TAction.system (joinPath env.binPath "makenek" ++ " eddy_uv") ∈ (test_install env).trace ∧
    ((test_install env).outcome = Except.error "Cannot build example: short_tests/eddy."
        ↔ env.nekFile = false) ∧
    (env.nekFile = true → (test_install env).outcome = Except.ok ()) := by
  cases h : env.nekFile <;> simp [test_install, h]

/-- Witness for C7: with the `nek5000` file present the test returns
without error. -/
theorem smoke_test_check_witness :
    (test_install envOk).outcome = Except.ok () ∧
    (test_install envOk).trace.head? = some (TAction.chdir eddyDir) :=
  ⟨(smoke_test_check envOk).2.2.2 rfl, (smoke_test_check envOk).1⟩

/-- C8 (counterexample): in the run where the verification fails, the
restoring `os.chdir(currentDir)` is never reached: starting from
`/build`, the raising execution terminates with the current directory
still at `/build/short_tests/eddy`. -/
theorem cwd_restore_cex :
    (test_install envFail).outcome
        = Except.error "Cannot build example: short_tests/eddy." ∧
    envFail.startDir = "/build" ∧
    (test_install envFail).finalCwd = "/build/short_tests/eddy" ∧
    ("/build/short_tests/eddy" : String) ≠ "/build" := by
  refine ⟨rfl, rfl, by decide, by decide⟩

/-- C8 (amended): the smoke test restores the saved working directory
in every execution that completes without raising; in the raising
execution the working directory remains the example directory. -/
theorem cwd_restore_amended (env : TestEnv) :
    (env.nekFile = true → isAbs env.startDir = true →
        (test_install env).finalCwd = env.startDir) ∧
    (env.nekFile = false →
        (test_install env).finalCwd = chdirResolve env.startDir eddyDir) := by
  constructor
  · intro h habs
    simp [test_install, h, chdirResolve, habs]
  · intro h
    simp [test_install, h]

/-- Witness for C8 (amended): a successful run from `/build` ends back
in `/build`. -/
theorem cwd_restore_amended_witness :
    (test_install envOk).finalCwd = envOk.startDir :=
  (cwd_restore_amended envOk).1 rfl rfl

/-- C9: at the two versions the recipe declares (17.0 and develop) the
`int_tp` tool is never invoked, and flipping the `int_tp` variant does
not change the install trace at all. -/
theorem declared_versions_no_int_tp (cfg : Config) :
    (cfg.version = v17_0 ∨ cfg.version = Version.develop) →
      Tool.int_tp ∉ toolCalls (install cfg) ∧
      install { cfg with int_tp := true } = install { cfg with int_tp := false } := by
  intro h
  have hne : cfg.version ≠ v17beta2 := by
    rcases h with h | h <;> rw [h] <;> decide
  constructor
  · intro hmem
    exact hne ((int_tp_mem_iff cfg).mp hmem).2
  · simp [install, hne]

/-- Witness for C9: evaluated at version 17.0 with `int_tp` requested. -/
theorem declared_versions_no_int_tp_witness :
    Tool.int_tp ∉ toolCalls (install cfg0) ∧
    install { cfg0 with int_tp := true } = install { cfg0 with int_tp := false } :=
  declared_versions_no_int_tp cfg0 (Or.inl rfl)

/-- C10: the smoke test never inspects the exit status of the launcher
invocation: the result is identical for any two exit codes, success is
equivalent to the `nek5000` file existing, and a run with no file fails
even when the exit status is zero. -/
theorem exit_status_ignored (env : TestEnv) (e1 e2 : Int) :
    test_install { env with exitCode := e1 } = test_install { env with exitCode := e2 } ∧
    ((test_install env).outcome = Except.ok () ↔ env.nekFile = true) ∧
    ((test_install env).outcome
        = Except.error "Cannot build example: short_tests/eddy." ↔ env.nekFile = false) := by
  refine ⟨rfl, ?_, ?_⟩ <;> cases h : env.nekFile <;> simp [test_install, h]

/-- Witness for C10: a run with exit status 0 and no `nek5000` file
fails all the same. -/
theorem exit_status_ignored_witness :
    test_install { envFail with exitCode := 0 } = test_install { envFail with exitCode := 7 } ∧
    ((test_install envFail).outcome
        = Except.error "Cannot build example: short_tests/eddy.") :=
  ⟨(exit_status_ignored envFail 0 7).1,
   (exit_status_ignored envFail 0 7).2.2.mpr rfl⟩

end Nek5000
